import Mathlib

/-!
Shallow embedding of `platform-switch` (src/src/lib.rs), a crate of
compile-time namespace facades.  The crate has no runtime logic: its whole
behaviour is that, given a set of cargo feature flags, each of three facade
modules (`thiserror`, `log`, `fmt`) re-exports symbols from one of two
backing crates.  We embed the configuration space as a structure of
booleans (one per cfg flag the source tests), and each module's `cfg_if!`
selection as a function from configurations to bindings.
-/

/-- A backing implementation alternative: the hosted (std-capable) crate or
the constrained (embedded / no_std) crate behind a facade. -/
inductive Backend where
  | hosted
  | constrained
deriving DecidableEq, Fintype

/-- The compile-time configuration flags tested by src/src/lib.rs:
feature `std` (line 76, 77, 126), the built-in `test` cfg (line 77),
feature `thiserror` (line 89), feature `core_error` (lines 77, 92),
feature `log` (line 104) and feature `defmt` (line 107). -/
structure Config where
  std : Bool
  test : Bool
  thiserror : Bool
  core_error : Bool
  log : Bool
  defmt : Bool
deriving DecidableEq, Fintype

/-- Line 77: `#![cfg_attr(all(not(any(feature = "std", test)), feature =
"core_error"), feature(error_in_core))]` — the condition under which the
crate enables the unstable `error_in_core` language capability. -/
def Config.errorInCoreGate (c : Config) : Bool :=
  (!(c.std || c.test)) && c.core_error

/-- Lines 89-98: the `thiserror` facade module, present iff feature
`thiserror` is set; inside, `cfg_if!` re-exports `thiserror::*` (hosted)
when feature `core_error` is absent, else `thiserror_core::*`
(constrained).  `none` means the module is not compiled at all. -/
def errorBinding (c : Config) : Option Backend :=
  if c.thiserror then
    some (if !c.core_error then Backend.hosted else Backend.constrained)
  else none

/-- The five severity entry points of the logging facade (lines 108-118). -/
inductive LogSymbol where
  | debug
  | error
  | info
  | trace
  | warn
deriving DecidableEq, Fintype

/-- Lines 104-121: the `log` facade module, present iff feature `log` is
set; inside, `cfg_if!` selects the `defmt` branch when feature `defmt` is
set, else the `log` branch.  Each branch binds the five entry points one
`pub use` line at a time, so per-symbol bindings are modelled per line. -/
def logBinding (c : Config) (s : LogSymbol) : Option Backend :=
  if c.log then
    some (if c.defmt then
      match s with
      | .debug => Backend.constrained
      | .error => Backend.constrained
      | .info => Backend.constrained
      | .trace => Backend.constrained
      | .warn => Backend.constrained
    else
      match s with
      | .debug => Backend.hosted
      | .error => Backend.hosted
      | .info => Backend.hosted
      | .trace => Backend.hosted
      | .warn => Backend.hosted)
  else none

/-- The four type aliases of the formatting facade (lines 127-135). -/
inductive FmtSymbol where
  | Debug
  | Display
  | Formatter
  | Result
deriving DecidableEq, Fintype

/-- Lines 124-138: the `fmt` facade module, present in every configuration
(no `#[cfg]` gate on line 124); `cfg_if!` selects `std::fmt` (hosted) when
feature `std` is set, else `core::fmt` (constrained), one `pub use` line
per alias. -/
def fmtBinding (c : Config) (s : FmtSymbol) : Backend :=
  if c.std then
    match s with
    | .Debug => Backend.hosted
    | .Display => Backend.hosted
    | .Formatter => Backend.hosted
    | .Result => Backend.hosted
  else
    match s with
    | .Debug => Backend.constrained
    | .Display => Backend.constrained
    | .Formatter => Backend.constrained
    | .Result => Backend.constrained

/-- The names the log facade exposes: `none` of them when the module is
absent (line 104); otherwise lines 108-112 (`defmt` branch) or lines
114-118 (`log` branch), each `pub use ... as name` line contributing its
alias. -/
def logExposedNames (c : Config) : List String :=
  if c.log then
    if c.defmt then ["debug", "error", "info", "trace", "warn"]
    else ["debug", "error", "info", "trace", "warn"]
  else []

/-- The names the fmt facade exposes (module not feature-gated, line 124):
lines 127-130 (`std` branch) or lines 132-135 (`core` branch). -/
def fmtExposedNames (c : Config) : List String :=
  if c.std then ["Debug", "Display", "Formatter", "Result"]
  else ["Debug", "Display", "Formatter", "Result"]

/-- Modelled from the spec: the public surface of the hosted backing error
crate behind the glob re-export of line 93 (an external collaborator, not
under src/) — it provides the error-derive capability, exported under the
name `Error`. -/
def hostedErrorCrateSurface : List String := ["Error"]

/-- Modelled from the spec: the public surface of the constrained backing
error crate behind the glob re-export of line 95 (an external
collaborator, not under src/) — the same named capability, `Error`. -/
def constrainedErrorCrateSurface : List String := ["Error"]

/-- The names the error facade exposes: none when feature `thiserror` is
absent (line 89); otherwise the glob of the crate the `cfg_if!` of lines
91-97 selects. -/
def errorExposedNames (c : Config) : List String :=
  if c.thiserror then
    if !c.core_error then hostedErrorCrateSurface
    else constrainedErrorCrateSurface
  else []

/-- Modelled from the spec: acceptance of the crate attributes by the
toolchain (the compiler is not part of src/).  The `feature(error_in_core)`
attribute applied by line 77 under `Config.errorInCoreGate` names an
unstable language capability, accepted only when the build setting
enabling unstable capabilities (a nightly toolchain, crate docs line 24)
is present; crate attributes are checked before any item is compiled. -/
def compileCrate (c : Config) (nightly : Bool) : Except String Unit :=
  if c.errorInCoreGate && !nightly then
    Except.error "the unstable capability error_in_core requires the enabling build setting"
  else Except.ok ()

/-- Whether the facade crate's build is accepted, with no crate-attribute
diagnostic. -/
def buildOk (c : Config) (nightly : Bool) : Bool :=
  match compileCrate c nightly with
  | Except.ok _ => true
  | Except.error _ => false

/-- The full build of the facade crate: the crate attributes are checked
first; only when they are accepted are the three facade bindings
produced. -/
def buildFacades (c : Config) (nightly : Bool) :
    Except String (Option Backend × (LogSymbol → Option Backend) × (FmtSymbol → Backend)) :=
  match compileCrate c nightly with
  | Except.error e => Except.error e
  | Except.ok _ => Except.ok (errorBinding c, logBinding c, fmtBinding c)

/-- Resolution of a downstream reference `platform_switch::modName::name`:
it resolves iff the named facade module exposes the name under the given
configuration. -/
def resolveName (c : Config) (modName name : String) : Bool :=
  if modName = "thiserror" then (errorExposedNames c).contains name
  else if modName = "log" then (logExposedNames c).contains name
  else if modName = "fmt" then (fmtExposedNames c).contains name
  else false

/-- Modelled from the spec: compilation of a downstream crate (not under
src/) holding references to facade symbols — it compiles exactly when
every reference resolves; an unresolved reference is a compile-time
diagnostic, never a runtime state. -/
def downstreamCompile (c : Config) (refs : List (String × String)) :
    Except String Unit :=
  if refs.all (fun r => resolveName c r.1 r.2) then Except.ok ()
  else Except.error "unresolved reference to a facade symbol"

/-- A full build: the facade crate is compiled first, then the downstream
crate with its facade references, so a facade-crate diagnostic precedes
any evaluation of downstream code. -/
def fullBuild (c : Config) (nightly : Bool) (refs : List (String × String)) :
    Except String Unit :=
  match buildFacades c nightly with
  | Except.error e => Except.error e
  | Except.ok _ => downstreamCompile c refs

/-- Modelled from the spec: the crate's manifest feature surface (the
cargo manifest is not under src/).  §6 names the switches a consumer
sets: `std_error` / `core_error` selecting the error backend, `log` with
or without `defmt` for logging, and `std` for formatting. -/
structure Manifest where
  std : Bool
  std_error : Bool
  core_error : Bool
  log : Bool
  defmt : Bool
deriving DecidableEq, Fintype

/-- Modelled from the spec: the manifest's feature implications (not under
src/).  Requesting either error backend — `std_error` (hosted) or
`core_error` (constrained) — activates the `thiserror` facade gate of
line 89, as in the crate docs' examples (lines 23-24) where
`platform-switch/std_error` and `platform-switch/core_error` switch the
`thiserror` facade between the two backends. -/
def Manifest.toConfig (m : Manifest) (test : Bool) : Config :=
  { std := m.std, test := test,
    thiserror := m.std_error || m.core_error,
    core_error := m.core_error,
    log := m.log, defmt := m.defmt }

/-- Modelled from the spec: §3's contradictory configuration, "two
exclusive flags both set" — within the error facade group the two
mutually exclusive selector flags are `std_error` and `core_error`
(§6). -/
def Manifest.contradictory (m : Manifest) : Bool :=
  m.std_error && m.core_error

/-- The backend the log facade's `cfg_if!` branch selection (lines
106-119) picks when the module is present. -/
def logSelected (c : Config) : Backend :=
  if c.defmt then Backend.constrained else Backend.hosted

/-- The backend the error facade's `cfg_if!` branch selection (lines
91-97) picks when the module is present. -/
def errorSelected (c : Config) : Backend :=
  if !c.core_error then Backend.hosted else Backend.constrained

/-- Invocation semantics of a facade logging entry point.  A
`pub use B::s as s` line makes the facade name an alias of the backing
symbol, so invoking the facade symbol is invoking the bound backing
symbol on the same arguments; `impl` is an arbitrary interpretation
assigning each backing crate's entry point its emitted record, and the
result is `none` when the facade does not expose the symbol. -/
def logFacadeInvoke (impl : Backend → LogSymbol → List String → List String)
    (c : Config) (s : LogSymbol) (args : List String) : Option (List String) :=
  match logBinding c s with
  | some b => some (impl b s args)
  | none => none

/-- Invocation semantics of the error-description capability re-exported
by the globs of lines 93 and 95: the facade's derive is the backing
crate's derive applied to the same input, under an arbitrary
interpretation `impl` of the two backing crates. -/
def errorFacadeDescribe (impl : Backend → String → String)
    (c : Config) (v : String) : Option String :=
  match errorBinding c with
  | some b => some (impl b v)
  | none => none

/-- The configuration of the crate docs' `mcu` example (lines 24, 57):
constrained logging requested together with the logging facade. -/
def cfgMcuLog : Config :=
  { std := false, test := false, thiserror := false, core_error := false,
    log := true, defmt := true }

/-- The configuration of spec §8 scenario 2: constrained logging backend
enabled, hosted formatting enabled, error facility disabled. -/
def cfgScenario2 : Config :=
  { std := true, test := false, thiserror := false, core_error := false,
    log := true, defmt := true }

/-- A configuration requesting the constrained error facility with
neither `std` nor `test` active (the docs' `mcu` shape, line 24). -/
def cfgCoreErrorNoStd : Config :=
  { std := false, test := false, thiserror := true, core_error := true,
    log := false, defmt := false }

/-- A configuration with `std` and `core_error` both set: line 77 then
does not enable the unstable capability. -/
def cfgStdCoreError : Config :=
  { std := true, test := false, thiserror := true, core_error := true,
    log := false, defmt := false }

/-- A manifest with both mutually exclusive error selector flags set. -/
def mBothError : Manifest :=
  { std := true, std_error := true, core_error := true,
    log := false, defmt := false }

/-- C1: whenever the logging facade is enabled, the `defmt` flag sends
all five entry points to the constrained backend and its absence sends all
five to the hosted backend; no configuration mixes backends. -/
theorem c1_log_all_or_nothing (c : Config) (h : c.log = true) :
    ((c.defmt = true → ∀ s, logBinding c s = some Backend.constrained) ∧
     (c.defmt = false → ∀ s, logBinding c s = some Backend.hosted)) ∧
    (∀ s t, logBinding c s = logBinding c t) := by
  refine ⟨⟨fun hd s => ?_, fun hd s => ?_⟩, fun s t => ?_⟩
  · cases s <;> simp [logBinding, h, hd]
  · cases s <;> simp [logBinding, h, hd]
  · cases s <;> cases t <;> cases hd : c.defmt <;> simp [logBinding, h, hd]

theorem c1_log_all_or_nothing_witness :
    cfgMcuLog.log = true ∧
    (((cfgMcuLog.defmt = true →
        ∀ s, logBinding cfgMcuLog s = some Backend.constrained) ∧
      (cfgMcuLog.defmt = false →
        ∀ s, logBinding cfgMcuLog s = some Backend.hosted)) ∧
     (∀ s t, logBinding cfgMcuLog s = logBinding cfgMcuLog t)) :=
  ⟨rfl, c1_log_all_or_nothing cfgMcuLog rfl⟩

/-- C2 counterexample: the contradictory configuration with both mutually
exclusive error selector flags set does not fail the build — even on a
toolchain without the unstable capability it is accepted, and the
resolver silently selects the constrained backend. -/
theorem c2_contradictory_counterexample :
    Manifest.contradictory mBothError = true ∧
    buildOk (Manifest.toConfig mBothError false) false = true ∧
    errorBinding (Manifest.toConfig mBothError false) =
      some Backend.constrained := by
  decide

/-- C2 (amended): every enabled facade group resolves to exactly one
backing implementation with no mixing of backends; but contradictory
configurations do not fail the build — the only build failure is the
crate's unstable-capability gate, `core_error` with neither `std` nor
`test`, on a toolchain without the enabling setting. -/
theorem c2_exactly_one_backend (c : Config) (n : Bool) :
    ((∀ s t, logBinding c s = logBinding c t) ∧
     (∀ s t, fmtBinding c s = fmtBinding c t) ∧
     (c.log = true → ∃ b, ∀ s, logBinding c s = some b) ∧
     (c.thiserror = true → ∃ b, errorBinding c = some b) ∧
     (∃ b, ∀ s, fmtBinding c s = b)) ∧
    (buildOk c n = false ↔ (c.errorInCoreGate = true ∧ n = false)) := by
  revert c n
  decide

theorem c2_exactly_one_backend_witness :
    ((∀ s t, logBinding cfgMcuLog s = logBinding cfgMcuLog t) ∧
     (∀ s t, fmtBinding cfgMcuLog s = fmtBinding cfgMcuLog t) ∧
     (cfgMcuLog.log = true →
        ∃ b, ∀ s, logBinding cfgMcuLog s = some b) ∧
     (cfgMcuLog.thiserror = true →
        ∃ b, errorBinding cfgMcuLog = some b) ∧
     (∃ b, ∀ s, fmtBinding cfgMcuLog s = b)) ∧
    (buildOk cfgMcuLog false = false ↔
      (cfgMcuLog.errorInCoreGate = true ∧ false = false)) :=
  c2_exactly_one_backend cfgMcuLog false

/-- C3 counterexample: with `std` and `core_error` both set, the
constrained error alternative is requested and selected, yet the build
is accepted without the enabling build setting — line 77 only applies
the unstable-capability attribute when neither `std` nor `test` is
active, so `core_error` is not "valid only under" that setting. -/
theorem c3_core_error_counterexample :
    cfgStdCoreError.core_error = true ∧
    errorBinding cfgStdCoreError = some Backend.constrained ∧
    buildOk cfgStdCoreError false = true := by
  decide

/-- C3 (amended): when the error facade is enabled, `core_error` selects
the constrained alternative and its absence selects the hosted one, and
the facade exposes nothing when disabled; the constrained alternative
requires the enabling build setting exactly when neither `std` nor
`test` is active — with `std` or `test` set it is accepted without
it. -/
theorem c3_error_selection (c : Config) (n : Bool) :
    (c.thiserror = true → c.core_error = true →
      errorBinding c = some Backend.constrained) ∧
    (c.core_error = true → c.std = false → c.test = false → n = false →
      buildOk c n = false) ∧
    (c.core_error = true → (c.std = true ∨ c.test = true) →
      buildOk c n = true) ∧
    (c.thiserror = true → c.core_error = false →
      errorBinding c = some Backend.hosted) ∧
    (c.thiserror = false → errorBinding c = none) := by
  obtain ⟨s, t, e, ce, l, d⟩ := c
  cases s <;> cases t <;> cases e <;> cases ce <;> cases n <;>
    simp [errorBinding, buildOk, compileCrate, Config.errorInCoreGate]

theorem c3_error_selection_witness :
    (cfgCoreErrorNoStd.thiserror = true → cfgCoreErrorNoStd.core_error = true →
      errorBinding cfgCoreErrorNoStd = some Backend.constrained) ∧
    (cfgCoreErrorNoStd.core_error = true → cfgCoreErrorNoStd.std = false →
      cfgCoreErrorNoStd.test = false → false = false →
      buildOk cfgCoreErrorNoStd false = false) ∧
    (cfgCoreErrorNoStd.core_error = true →
      (cfgCoreErrorNoStd.std = true ∨ cfgCoreErrorNoStd.test = true) →
      buildOk cfgCoreErrorNoStd false = true) ∧
    (cfgCoreErrorNoStd.thiserror = true → cfgCoreErrorNoStd.core_error = false →
      errorBinding cfgCoreErrorNoStd = some Backend.hosted) ∧
    (cfgCoreErrorNoStd.thiserror = false → errorBinding cfgCoreErrorNoStd = none) :=
  c3_error_selection cfgCoreErrorNoStd false

/-- C4: in every configuration the single flag `std` decides the backend
of all four formatting aliases at once — hosted when set, constrained
when absent — and the four aliases never mix backends. -/
theorem c4_fmt_single_flag_atomic (c : Config) :
    (∀ s, fmtBinding c s =
      (if c.std then Backend.hosted else Backend.constrained)) ∧
    (∀ s t, fmtBinding c s = fmtBinding c t) := by
  revert c
  decide

/-- C5: requesting the constrained error facility with neither `std` nor
`test` active, on a toolchain without the enabling build setting, fails
the build of the facade crate itself with the unstable-capability
diagnostic — before any downstream code is evaluated, whatever
references the downstream crate holds. -/
theorem c5_misconfiguration_fails_build (c : Config)
    (refs : List (String × String)) (hc : c.core_error = true)
    (hs : c.std = false) (ht : c.test = false) :
    fullBuild c false refs =
      Except.error
        "the unstable capability error_in_core requires the enabling build setting" := by
  have hg : c.errorInCoreGate = true := by
    simp [Config.errorInCoreGate, hs, ht, hc]
  simp [fullBuild, buildFacades, compileCrate, hg]

theorem c5_misconfiguration_fails_build_witness :
    cfgCoreErrorNoStd.core_error = true ∧ cfgCoreErrorNoStd.std = false ∧
    cfgCoreErrorNoStd.test = false ∧
    fullBuild cfgCoreErrorNoStd false [("thiserror", "Error")] =
      Except.error
        "the unstable capability error_in_core requires the enabling build setting" :=
  ⟨rfl, rfl, rfl,
    c5_misconfiguration_fails_build cfgCoreErrorNoStd
      [("thiserror", "Error")] rfl rfl rfl⟩

/-- Helper: the log facade's per-symbol binding is the branch-selected
backend when the module is present, for every symbol alike. -/
theorem logBinding_eq (c : Config) (s : LogSymbol) :
    logBinding c s = if c.log then some (logSelected c) else none := by
  cases hl : c.log <;> cases hd : c.defmt <;> cases s <;>
    simp [logBinding, logSelected, hl, hd]

/-- Helper: the error facade's binding is the branch-selected backend
when the module is present. -/
theorem errorBinding_eq (c : Config) :
    errorBinding c = if c.thiserror then some (errorSelected c) else none := by
  cases he : c.thiserror <;> cases hce : c.core_error <;>
    simp [errorBinding, errorSelected, he, hce]

/-- Helper: the fmt facade's per-symbol binding is decided by `std`, for
every alias alike. -/
theorem fmtBinding_eq (c : Config) (s : FmtSymbol) :
    fmtBinding c s = if c.std then Backend.hosted else Backend.constrained := by
  cases hs : c.std <;> cases s <;> simp [fmtBinding, hs]

/-- Helper: the log facade's exposed names depend only on whether the
module is present, not on the selected branch. -/
theorem logExposedNames_eq (c : Config) :
    logExposedNames c =
      if c.log then ["debug", "error", "info", "trace", "warn"] else [] := by
  cases hl : c.log <;> cases hd : c.defmt <;>
    simp [logExposedNames, hl, hd]

/-- Helper: the fmt facade's exposed names are the same four aliases in
every configuration. -/
theorem fmtExposedNames_eq (c : Config) :
    fmtExposedNames c = ["Debug", "Display", "Formatter", "Result"] := by
  cases hs : c.std <;> simp [fmtExposedNames, hs]

/-- Helper: the error facade's exposed names depend only on whether the
module is present, not on the selected crate. -/
theorem errorExposedNames_eq (c : Config) :
    errorExposedNames c = if c.thiserror then ["Error"] else [] := by
  cases he : c.thiserror <;> cases hce : c.core_error <;>
    simp [errorExposedNames, hostedErrorCrateSurface,
      constrainedErrorCrateSurface, he, hce]

/-- C6: two configurations that both enable a facade group expose exactly
the same public names for it — five logging entry points, four formatting
aliases, the error-derive capability — whichever backends were
selected. -/
theorem c6_surface_independent_of_backend (c c' : Config) :
    (c.log = true → c'.log = true →
      logExposedNames c = logExposedNames c') ∧
    fmtExposedNames c = fmtExposedNames c' ∧
    (c.thiserror = true → c'.thiserror = true →
      errorExposedNames c = errorExposedNames c') := by
  refine ⟨fun hl hl' => ?_, ?_, fun he he' => ?_⟩
  · simp [logExposedNames_eq, hl, hl']
  · simp [fmtExposedNames_eq]
  · simp [errorExposedNames_eq, he, he']

theorem c6_surface_independent_of_backend_witness :
    (cfgMcuLog.log = true → cfgScenario2.log = true →
      logExposedNames cfgMcuLog = logExposedNames cfgScenario2) ∧
    fmtExposedNames cfgMcuLog = fmtExposedNames cfgScenario2 ∧
    (cfgMcuLog.thiserror = true → cfgScenario2.thiserror = true →
      errorExposedNames cfgMcuLog = errorExposedNames cfgScenario2) :=
  c6_surface_independent_of_backend cfgMcuLog cfgScenario2

/-- C7: each exposed facade symbol is the selected backing symbol
unchanged — invoking it yields exactly the backing implementation's
effect on the same arguments — and the facade's behaviour depends only
on the selected backend's implementation, never on the other one. -/
theorem c7_facade_reexports_unchanged
    (impl impl' : Backend → LogSymbol → List String → List String)
    (eimpl eimpl' : Backend → String → String) (c : Config) :
    (∀ s args b, logBinding c s = some b →
      logFacadeInvoke impl c s args = some (impl b s args)) ∧
    (∀ v b, errorBinding c = some b →
      errorFacadeDescribe eimpl c v = some (eimpl b v)) ∧
    ((∀ s args, impl (logSelected c) s args = impl' (logSelected c) s args) →
      ∀ s args, logFacadeInvoke impl c s args = logFacadeInvoke impl' c s args) ∧
    ((∀ v, eimpl (errorSelected c) v = eimpl' (errorSelected c) v) →
      ∀ v, errorFacadeDescribe eimpl c v = errorFacadeDescribe eimpl' c v) := by
  refine ⟨fun s args b h => ?_, fun v b h => ?_,
    fun hagree s args => ?_, fun hagree v => ?_⟩
  · simp [logFacadeInvoke, h]
  · simp [errorFacadeDescribe, h]
  · simp only [logFacadeInvoke, logBinding_eq]
    cases hl : c.log <;> simp [hagree]
  · simp only [errorFacadeDescribe, errorBinding_eq]
    cases he : c.thiserror <;> simp [hagree]

theorem c7_facade_reexports_unchanged_witness :
    (∀ s args b, logBinding cfgMcuLog s = some b →
      logFacadeInvoke (fun _ _ args => args) cfgMcuLog s args =
        some ((fun _ _ args => args : Backend → LogSymbol → List String → List String) b s args)) ∧
    (∀ v b, errorBinding cfgMcuLog = some b →
      errorFacadeDescribe (fun _ v => v) cfgMcuLog v =
        some ((fun _ v => v : Backend → String → String) b v)) ∧
    ((∀ s args, (fun _ _ args => args : Backend → LogSymbol → List String → List String)
          (logSelected cfgMcuLog) s args =
        (fun _ _ args => args : Backend → LogSymbol → List String → List String)
          (logSelected cfgMcuLog) s args) →
      ∀ s args, logFacadeInvoke (fun _ _ args => args) cfgMcuLog s args =
        logFacadeInvoke (fun _ _ args => args) cfgMcuLog s args) ∧
    ((∀ v, (fun _ v => v : Backend → String → String) (errorSelected cfgMcuLog) v =
        (fun _ v => v : Backend → String → String) (errorSelected cfgMcuLog) v) →
      ∀ v, errorFacadeDescribe (fun _ v => v) cfgMcuLog v =
        errorFacadeDescribe (fun _ v => v) cfgMcuLog v) :=
  c7_facade_reexports_unchanged (fun _ _ args => args) (fun _ _ args => args)
    (fun _ v => v) (fun _ v => v) cfgMcuLog

/-- C8: under scenario 2 — constrained logging enabled, hosted formatting
enabled, error facility disabled — the five logging entry points bind to
the constrained backend, the four formatting aliases bind to the hosted
backend, the error facade exposes no names, and a downstream reference
to an error-facade symbol is a compile-time unresolved-reference
diagnostic. -/
theorem c8_scenario2_bindings :
    (∀ s, logBinding cfgScenario2 s = some Backend.constrained) ∧
    (∀ s, fmtBinding cfgScenario2 s = Backend.hosted) ∧
    errorExposedNames cfgScenario2 = [] ∧
    downstreamCompile cfgScenario2 [("thiserror", "Error")] =
      Except.error "unresolved reference to a facade symbol" := by
  refine ⟨by decide, by decide, by decide, ?_⟩
  rfl

/-- C9: the formatting facade is present in every configuration, while
the error facade exposes names exactly when feature `thiserror` is set
and the logging facade exactly when feature `log` is set. -/
theorem c9_module_gating (c : Config) :
    fmtExposedNames c ≠ [] ∧
    (errorExposedNames c = [] ↔ c.thiserror = false) ∧
    (logExposedNames c = [] ↔ c.log = false) := by
  obtain ⟨s, t, e, ce, l, d⟩ := c
  cases s <;> cases e <;> cases ce <;> cases l <;> cases d <;>
    simp [fmtExposedNames, errorExposedNames, logExposedNames,
      hostedErrorCrateSurface, constrainedErrorCrateSurface]

theorem c9_module_gating_witness :
    fmtExposedNames cfgScenario2 ≠ [] ∧
    (errorExposedNames cfgScenario2 = [] ↔ cfgScenario2.thiserror = false) ∧
    (logExposedNames cfgScenario2 = [] ↔ cfgScenario2.log = false) :=
  c9_module_gating cfgScenario2

/-- C10: each facade group's backend choice is decided by its own flag
alone — configurations agreeing on `log` and `defmt` have identical
logging bindings (so toggling `std` never changes them), configurations
agreeing on `std` have identical formatting bindings (so toggling
`defmt` never changes them), and configurations that enable the error
facade and agree on `core_error` have identical error bindings. -/
theorem c10_flag_independence (c c' : Config) :
    (c.log = c'.log → c.defmt = c'.defmt →
      ∀ s, logBinding c s = logBinding c' s) ∧
    (c.std = c'.std → ∀ s, fmtBinding c s = fmtBinding c' s) ∧
    (c.thiserror = true → c'.thiserror = true →
      c.core_error = c'.core_error → errorBinding c = errorBinding c') := by
  refine ⟨fun h1 h2 s => ?_, fun h s => ?_, fun he he' hce => ?_⟩
  · simp [logBinding_eq, logSelected, h1, h2]
  · simp [fmtBinding_eq, h]
  · simp [errorBinding, he, he', hce]

theorem c10_flag_independence_witness :
    (cfgMcuLog.log = cfgScenario2.log → cfgMcuLog.defmt = cfgScenario2.defmt →
      ∀ s, logBinding cfgMcuLog s = logBinding cfgScenario2 s) ∧
    (cfgMcuLog.std = cfgScenario2.std →
      ∀ s, fmtBinding cfgMcuLog s = fmtBinding cfgScenario2 s) ∧
    (cfgMcuLog.thiserror = true → cfgScenario2.thiserror = true →
      cfgMcuLog.core_error = cfgScenario2.core_error →
      errorBinding cfgMcuLog = errorBinding cfgScenario2) :=
  c10_flag_independence cfgMcuLog cfgScenario2
